import Mathlib

/-!
Verification of the autonomous system orchestrator
(src/migrated_functionality/src/autonomous_system_orchestrator.py).

The Python module is embedded shallowly: pure methods become Lean functions,
Python dict payloads become structures or association lists, floats become
rationals, `time.time()` / `datetime.now()` become explicit `now : Nat`
parameters, `hash(str(datetime.now()))` becomes an explicit `Int` parameter,
and code that raises exceptions returns `Except String`.
-/

namespace AutoOrch

/-- Agent types (Python class `AgentType(Enum)`). -/
inductive AgentType where
  | decision_maker
  | process_automator
  | system_monitor
  | optimizer
  | self_healer
deriving DecidableEq

/-- Task priorities (Python class `TaskPriority(Enum)`): CRITICAL=1, HIGH=2, MEDIUM=3, LOW=4. -/
inductive TaskPriority where
  | critical
  | high
  | medium
  | low
deriving DecidableEq

/-- The numeric `.value` of the Python `TaskPriority` enum member. -/
def TaskPriority.value : TaskPriority → Nat
  | .critical => 1
  | .high => 2
  | .medium => 3
  | .low => 4

/-- A decision context (`context: Dict[str, Any]`).  Every read the decision maker
performs on the context is either a key-presence test or a numeric read
(`urgency`, `available_resources`), so the mapping is embedded as an association
list from keys to rationals. -/
abbrev Ctx := List (String × ℚ)

/-- Python `k in context` (key presence). -/
def hasKey (context : Ctx) (k : String) : Bool := (context.lookup k).isSome

/-- Python `context.get(k, dflt)` for numeric values. -/
def getNum (context : Ctx) (k : String) (dflt : ℚ) : ℚ := (context.lookup k).getD dflt

/-- A decision option dict `{action, impact, cost}` as built by `_generate_options`. -/
structure DOption where
  action : String
  impact : String
  cost : String
deriving DecidableEq

/-- `DecisionMakerAgent._classify_decision_type`: fixed-order key tests. -/
def classifyDecisionType (context : Ctx) : String :=
  if hasKey context "performance_issue" then "performance_optimization"
  else if hasKey context "security_alert" then "security_response"
  else if hasKey context "resource_constraint" then "resource_allocation"
  else if hasKey context "business_opportunity" then "business_strategy"
  else "operational_decision"

/-- `DecisionMakerAgent._generate_options`: the static option table; any
classified type without a branch yields the initial empty list. -/
def generateOptions (context : Ctx) : List DOption :=
  let decision_type := classifyDecisionType context
  if decision_type = "performance_optimization" then
    [⟨"scale_resources", "high", "medium"⟩,
     ⟨"optimize_algorithms", "medium", "low"⟩,
     ⟨"restart_services", "medium", "low"⟩,
     ⟨"investigate_root_cause", "high", "low"⟩]
  else if decision_type = "security_response" then
    [⟨"isolate_affected_systems", "high", "high"⟩,
     ⟨"update_security_policies", "medium", "low"⟩,
     ⟨"notify_security_team", "high", "low"⟩,
     ⟨"run_security_scan", "medium", "low"⟩]
  else if decision_type = "resource_allocation" then
    [⟨"allocate_more_resources", "high", "high"⟩,
     ⟨"optimize_current_resources", "medium", "low"⟩,
     ⟨"queue_tasks", "low", "none"⟩,
     ⟨"implement_caching", "medium", "medium"⟩]
  else []

/-- The impact-score table `{'high': 3, 'medium': 2, 'low': 1}.get(impact, 1)`. -/
def impactScore (impact : String) : ℚ :=
  if impact = "high" then 3 else if impact = "medium" then 2
  else if impact = "low" then 1 else 1

/-- The cost-score table `{'none': 3, 'low': 2, 'medium': 1, 'high': 0}.get(cost, 1)`. -/
def costScore (cost : String) : ℚ :=
  if cost = "none" then 3 else if cost = "low" then 2
  else if cost = "medium" then 1 else if cost = "high" then 0 else 1

/-- `DecisionMakerAgent._calculate_option_score`. -/
def calculateOptionScore (opt : DOption) (context : Ctx) : ℚ :=
  let context_weight := if hasKey context "urgency" then getNum context "urgency" 1 else 1
  (impactScore opt.impact * (6/10) + costScore opt.cost * (4/10)) * context_weight

/-- `DecisionMakerAgent._select_best_option`: track the best option under a
strict-greater comparison starting from score -1 and no option; the final
`best_option or options[0]` falls back to the head of the list, which on an
empty list is the Python IndexError — embedded as `none`. -/
def selectBestOption (options : List DOption) (context : Ctx) : Option DOption :=
  let best := options.foldl
    (fun (acc : Option DOption × ℚ) opt =>
      if calculateOptionScore opt context > acc.2
      then (some opt, calculateOptionScore opt context) else acc)
    (none, -1)
  match best.1 with
  | some b => some b
  | none => options.head?

/-- The projections of a recorded decision dict that later confidence
computations read: `d.get('type')` and `d.get('success', True)`. -/
structure DecisionRec where
  dtype : String
  success : Option Bool
deriving DecidableEq

/-- The empirical success rate over a non-empty list of similar decisions:
`len([d for d in similar if d.get('success', True)]) / len(similar)`. -/
def successRate (similar : List DecisionRec) : ℚ :=
  ((similar.filter (fun d => d.success.getD true)).length : ℚ) / (similar.length : ℚ)

/-- `DecisionMakerAgent._calculate_confidence`. -/
def calculateConfidence (history : List DecisionRec) (context : Ctx) : ℚ :=
  let similar := history.filter (fun d => d.dtype == classifyDecisionType context)
  let base := if similar.isEmpty then (7/10 : ℚ) else (7/10 + successRate similar) / 2
  min 1 base

/-- `DecisionMakerAgent._generate_reasoning`. -/
def generateReasoning (opt : DOption) (context : Ctx) : String :=
  let r := "Selected " ++ opt.action ++ " because it has " ++ opt.impact ++
    " impact and " ++ opt.cost ++ " cost."
  let r := if (context.lookup "urgency").getD 0 ≠ 0
    then r ++ " High urgency situation requires immediate action." else r
  if getNum context "available_resources" 0 < 100
    then r ++ " Resource constraints favor cost-effective solutions." else r

/-- The decision dict returned by `make_decision`. -/
structure Decision where
  decision_id : String
  dtype : String
  context : Ctx
  options : List DOption
  selected_option : DOption
  confidence : ℚ
  reasoning : String
  timestamp : Nat
deriving DecidableEq

/-- `DecisionMakerAgent.make_decision` without the history side effect.
The `none` result of `selectBestOption` is the Python IndexError raised by
`options[0]` on an empty option list; it propagates out of `make_decision`
(the method catches, logs, and re-raises), embedded as `Except.error`. -/
def makeDecision (history : List DecisionRec) (context : Ctx) (now : Nat) :
    Except String Decision :=
  let decision_type := classifyDecisionType context
  let decision_options := generateOptions context
  match selectBestOption decision_options context with
  | none => Except.error "list index out of range"
  | some best =>
    Except.ok
      { decision_id := "decision_" ++ toString now
        dtype := decision_type
        context := context
        options := decision_options
        selected_option := best
        confidence := calculateConfidence history context
        reasoning := generateReasoning best context
        timestamp := now }

/-- `make_decision` together with its side effect on `self.decision_history`:
on success the decision (which carries no `success` key) is appended; when the
call raises, nothing is appended. -/
def makeDecisionRecorded (history : List DecisionRec) (context : Ctx) (now : Nat) :
    Except String Decision × List DecisionRec :=
  match makeDecision history context now with
  | Except.ok d => (Except.ok d, history ++ [⟨d.dtype, none⟩])
  | Except.error e => (Except.error e, history)

/-- An issue dict as produced by `_detect_issues` (keys type/severity/symptoms/timestamp). -/
structure Issue where
  itype : String
  severity : String
  symptoms : List String
  timestamp : Nat
deriving DecidableEq

/-- An optimization dict as produced by `_detect_optimizations`. -/
structure Optimization where
  otype : String
  description : String
  potential_benefit : String
deriving DecidableEq

/-- A task's `parameters: Dict[str, Any]`, embedded by the projections the core
reads from it: the numeric view consumed as a decision context, the
`parameters.get('process_type')` string, the `parameters.get('symptoms', [])`
list and `parameters.get('id', 'unknown')` read by the self healer, and the
`issue` / `optimization` payloads stored by the monitoring loop.  A dict built
as `{'issue': issue}` has none of the other keys, so all other projections take
their defaults there. -/
structure TaskParams where
  ctx : Ctx := []
  process_type : Option String := none
  symptoms : List String := []
  issue_id : Option String := none
  issue : Option Issue := none
  optimization : Option Optimization := none
deriving DecidableEq

/-- One step of a process template: `{'action': ..., 'timeout': ...}`. -/
structure ProcessStep where
  action : String
  timeout : Nat
deriving DecidableEq

/-- A process template: `{'steps': [...]}`. -/
structure ProcessTemplate where
  steps : List ProcessStep
deriving DecidableEq

/-- The `deployment` template from `_get_process_template`. -/
def deploymentTemplate : ProcessTemplate :=
  ⟨[⟨"validate_config", 30⟩, ⟨"build_images", 300⟩, ⟨"run_tests", 120⟩,
    ⟨"deploy_services", 180⟩, ⟨"verify_deployment", 60⟩]⟩

/-- The `scaling` template from `_get_process_template`. -/
def scalingTemplate : ProcessTemplate :=
  ⟨[⟨"analyze_load", 30⟩, ⟨"calculate_requirements", 15⟩, ⟨"provision_resources", 120⟩,
    ⟨"update_configuration", 30⟩, ⟨"verify_scaling", 60⟩]⟩

/-- The `backup` template from `_get_process_template`. -/
def backupTemplate : ProcessTemplate :=
  ⟨[⟨"prepare_backup", 30⟩, ⟨"create_backup", 600⟩, ⟨"verify_backup", 60⟩,
    ⟨"cleanup_old_backups", 120⟩]⟩

/-- `ProcessAutomatorAgent._get_process_template`: `templates.get(process_type)`.
The argument is an `Option` because `_execute_task` passes
`task.parameters.get('process_type')`, which may be Python `None`. -/
def getProcessTemplate (process_type : Option String) : Option ProcessTemplate :=
  match process_type with
  | some s =>
    if s = "deployment" then some deploymentTemplate
    else if s = "scaling" then some scalingTemplate
    else if s = "backup" then some backupTemplate
    else none
  | none => none

/-- Python str() of an optional string, as interpolated into an f-string. -/
def pyShowOptStr : Option String → String
  | some s => s
  | none => "None"

/-- A step result dict.  The success dict of `_execute_step` carries no
`error` key and the failure dict no `result` key; absent keys are `none`. -/
structure StepResult where
  action : String
  success : Bool
  duration : ℚ
  result : Option String
  error : Option String
deriving DecidableEq

/-- The outcome dict of `execute_automation`.  The success dict has no `error`
key (`none` here) and the failure dict has no `results` key (`[]` here). -/
structure AutomationOutcome where
  process_id : String
  success : Bool
  error : Option String
  results : List StepResult
  completed_steps : Nat
  total_steps : Nat
deriving DecidableEq

/-- The step loop of `execute_automation`: run steps in order, appending each
result; on the first failing step stop and report partial progress. -/
def runSteps (ex : ProcessStep → TaskParams → StepResult) (params : TaskParams)
    (process_id : String) (total : Nat) :
    List ProcessStep → List StepResult → AutomationOutcome
  | [], acc =>
    { process_id := process_id, success := true, error := none, results := acc
      completed_steps := acc.length, total_steps := total }
  | s :: rest, acc =>
    let r := ex s params
    if r.success then runSteps ex params process_id total rest (acc ++ [r])
    else
      { process_id := process_id, success := false, error := r.error, results := []
        completed_steps := (acc ++ [r]).length, total_steps := total }

/-- `ProcessAutomatorAgent.execute_automation`, parameterized over the
step-executor capability (`_execute_step` in the source).  An unknown process
type raises `ValueError(f"Unknown process type: {process_type}")`, which the
method re-raises — embedded as `Except.error`.  The function reads nothing but
its arguments, so it cannot enqueue a Task or touch queue state. -/
def executeAutomation (ex : ProcessStep → TaskParams → StepResult)
    (process_type : Option String) (params : TaskParams) (now : Nat) :
    Except String AutomationOutcome :=
  match getProcessTemplate process_type with
  | none => Except.error ("Unknown process type: " ++ pyShowOptStr process_type)
  | some tmpl =>
    Except.ok (runSteps ex params ("automation_" ++ toString now) tmpl.steps.length tmpl.steps [])

/-- The source's own `_execute_step`: a mock that always succeeds. -/
def mockExecuteStep (step : ProcessStep) (_params : TaskParams) : StepResult :=
  { action := step.action, success := true, duration := 1
    result := some ("Successfully executed " ++ step.action), error := none }

/-- A diagnosis dict from `_diagnose_issue`. -/
structure Diagnosis where
  issue_type : String
  severity : String
  root_cause : String
  confidence : ℚ
deriving DecidableEq

/-- Substring containment on character lists. -/
def charsContain (needle : List Char) : List Char → Bool
  | [] => needle.isEmpty
  | c :: rest => needle.isPrefixOf (c :: rest) || charsContain needle rest

/-- Python `needle in hay` for strings (substring containment). -/
def strContains (hay needle : String) : Bool := charsContain needle.data hay.data

/-- Python `str(symptoms)` for a list of symptom strings, as matched against by
`_diagnose_issue`: the repr of a list of single-quoted strings. -/
def strOfSymptoms (symptoms : List String) : String :=
  "[" ++ String.intercalate ", " (symptoms.map (fun s => "\x27" ++ s ++ "\x27")) ++ "]"

/-- `SelfHealerAgent._diagnose_issue`: fixed-order substring matching over the
rendered symptom text. -/
def diagnoseIssue (symptomsText : String) : Diagnosis :=
  if strContains symptomsText "connection_refused" then
    ⟨"service_unavailable", "high", "Service is not running or not accessible", 9/10⟩
  else if strContains symptomsText "out_of_memory" then
    ⟨"resource_exhaustion", "critical", "Insufficient memory resources", 95/100⟩
  else if strContains symptomsText "timeout" then
    ⟨"performance_degradation", "medium", "Service response time exceeded threshold", 8/10⟩
  else
    ⟨"unknown", "medium", "Unable to determine root cause", 3/10⟩

/-- A healing strategy dict `{'action': ..., 'priority': ...}`. -/
structure Strategy where
  action : String
  priority : Nat
deriving DecidableEq

/-- The static strategy table of `_create_healing_plan`, with the generic
fallback for unknown issue types. -/
def healingStrategiesFor (issue_type : String) : List Strategy :=
  if issue_type = "service_unavailable" then
    [⟨"restart_service", 1⟩, ⟨"check_dependencies", 2⟩, ⟨"verify_configuration", 3⟩]
  else if issue_type = "resource_exhaustion" then
    [⟨"scale_resources", 1⟩, ⟨"optimize_memory_usage", 2⟩, ⟨"restart_services", 3⟩]
  else if issue_type = "performance_degradation" then
    [⟨"analyze_performance", 1⟩, ⟨"optimize_queries", 2⟩, ⟨"scale_horizontally", 3⟩]
  else
    [⟨"investigate_issue", 1⟩, ⟨"collect_logs", 2⟩]

/-- `SelfHealerAgent._estimate_healing_time`: the per-action minute table with
default 10. -/
def estimateHealingTime (strategies : List Strategy) : Nat :=
  (strategies.map (fun s =>
    if s.action = "restart_service" then 5
    else if s.action = "scale_resources" then 10
    else if s.action = "optimize_memory_usage" then 15
    else if s.action = "analyze_performance" then 20
    else if s.action = "investigate_issue" then 30
    else 10)).sum

/-- A healing plan dict from `_create_healing_plan`. -/
structure HealingPlan where
  plan_id : String
  issue_type : String
  severity : String
  strategies : List Strategy
  estimated_duration : Nat
deriving DecidableEq

/-- `SelfHealerAgent._create_healing_plan`. -/
def createHealingPlan (diagnosis : Diagnosis) (now : Nat) : HealingPlan :=
  let strategies := healingStrategiesFor diagnosis.issue_type
  { plan_id := "healing_plan_" ++ toString now
    issue_type := diagnosis.issue_type
    severity := diagnosis.severity
    strategies := strategies
    estimated_duration := estimateHealingTime strategies }

/-- A per-strategy execution result dict. -/
structure StrategyResult where
  action : String
  priority : Nat
  success : Bool
  duration : ℚ
  message : String
deriving DecidableEq

/-- The aggregate execution dict of `_execute_healing`. -/
structure HealingExecution where
  execution_id : String
  strategies_executed : Nat
  total_strategies : Nat
  success_rate : ℚ
  results : List StrategyResult
deriving DecidableEq

/-- `SelfHealerAgent._execute_healing`: the source's mock that reports success
for every strategy. -/
def executeHealing (plan : HealingPlan) (now : Nat) : HealingExecution :=
  let results := plan.strategies.map (fun st =>
    { action := st.action, priority := st.priority, success := true, duration := 1
      message := "Successfully executed " ++ st.action : StrategyResult })
  { execution_id := "healing_exec_" ++ toString now
    strategies_executed := results.length
    total_strategies := plan.strategies.length
    success_rate := 1
    results := results }

/-- The report dict returned by `diagnose_and_heal`. -/
structure HealingReport where
  issue_id : String
  diagnosis : Diagnosis
  healing_plan : HealingPlan
  healing_result : HealingExecution
  timestamp : Nat
deriving DecidableEq

/-- `SelfHealerAgent.diagnose_and_heal`, on the projections of the issue dict
that it reads (`symptoms`, `id`). -/
def diagnoseAndHeal (symptoms : List String) (issue_id : Option String) (now : Nat) :
    HealingReport :=
  let diagnosis := diagnoseIssue (strOfSymptoms symptoms)
  let plan := createHealingPlan diagnosis now
  { issue_id := issue_id.getD "unknown"
    diagnosis := diagnosis
    healing_plan := plan
    healing_result := executeHealing plan now
    timestamp := now }

/-- The agent result written onto a Task by `_execute_task`: a decision dict,
an automation outcome, a healing report, or the bare
`{'error': 'Unknown agent type: ...'}` dict of the fallback branch. -/
inductive TaskResult where
  | decision (d : Decision)
  | automation (o : AutomationOutcome)
  | healing (r : HealingReport)
  | errPayload (msg : String)
deriving DecidableEq

/-- The `AutonomousTask` dataclass. -/
structure AutonomousTask where
  task_id : String
  agent_type : AgentType
  priority : TaskPriority
  description : String
  parameters : TaskParams
  status : String
  created_at : Nat
  started_at : Option Nat := none
  completed_at : Option Nat := none
  result : Option TaskResult := none
  error_message : Option String := none
deriving DecidableEq

/-- Python `f"{task.agent_type}"` on the enum member. -/
def agentTypeStr : AgentType → String
  | .decision_maker => "AgentType.DECISION_MAKER"
  | .process_automator => "AgentType.PROCESS_AUTOMATOR"
  | .system_monitor => "AgentType.SYSTEM_MONITOR"
  | .optimizer => "AgentType.OPTIMIZER"
  | .self_healer => "AgentType.SELF_HEALER"

/-- `AutonomousSystemOrchestrator._execute_task`: mark in_progress, dispatch on
the agent-type tag, then mark completed with the result — or failed with the
error message when the dispatched agent raises.  Returns the final task record
together with the decision maker's updated history. -/
def executeTask (history : List DecisionRec) (task : AutonomousTask) (now : Nat) :
    AutonomousTask × List DecisionRec :=
  let t1 := { task with status := "in_progress", started_at := some now }
  match task.agent_type with
  | .decision_maker =>
    match makeDecisionRecorded history task.parameters.ctx now with
    | (Except.ok d, history2) =>
      ({ t1 with
          result := some (TaskResult.decision d)
          status := "completed"
          completed_at := some now }, history2)
    | (Except.error e, history2) =>
      ({ t1 with
          status := "failed"
          error_message := some e
          completed_at := some now }, history2)
  | .process_automator =>
    match executeAutomation mockExecuteStep task.parameters.process_type task.parameters now with
    | Except.ok o =>
      ({ t1 with
          result := some (TaskResult.automation o)
          status := "completed"
          completed_at := some now }, history)
    | Except.error e =>
      ({ t1 with
          status := "failed"
          error_message := some e
          completed_at := some now }, history)
  | .self_healer =>
    let r := diagnoseAndHeal task.parameters.symptoms task.parameters.issue_id now
    ({ t1 with
        result := some (TaskResult.healing r)
        status := "completed"
        completed_at := some now }, history)
  | _ =>
    ({ t1 with
        result := some (TaskResult.errPayload
          ("Unknown agent type: " ++ agentTypeStr task.agent_type))
        status := "completed"
        completed_at := some now }, history)

/-- The sort key of `self.task_queue.sort(key=lambda t: t.priority.value)`. -/
def taskKey (t : AutonomousTask) : Nat := t.priority.value

/-- Stable insertion of a task in front of the first queued task with a
priority value that is not smaller. -/
def insertTask (t : AutonomousTask) : List AutonomousTask → List AutonomousTask
  | [] => [t]
  | u :: us => if taskKey t ≤ taskKey u then t :: u :: us else u :: insertTask t us

/-- The queue sort of `_task_processing_loop`:
`self.task_queue.sort(key=lambda t: t.priority.value)`.  Python's list.sort is
a stable sort by the key; it is embedded as stable insertion sort, which (as the
sortedness and stability theorems below pin down) computes the same list as any
stable sort by `taskKey`. -/
def taskSort (q : List AutonomousTask) : List AutonomousTask := q.foldr insertTask []

/-- The dequeue step of `_task_processing_loop`: sort by priority value, then
`pop(0)`.  Returns the removed task and the remaining queue, or `none` when the
queue is empty (the loop then just sleeps). -/
def dequeue (q : List AutonomousTask) : Option (AutonomousTask × List AutonomousTask) :=
  match taskSort q with
  | [] => none
  | t :: rest => some (t, rest)

/-- Repeated dequeuing with explicit fuel. -/
def drainN : Nat → List AutonomousTask → List AutonomousTask
  | 0, _ => []
  | n + 1, q =>
    match dequeue q with
    | none => []
    | some (t, rest) => t :: drainN n rest

/-- The full order in which the processing loop serves a queue if nothing new
arrives: dequeue until empty. -/
def drain (q : List AutonomousTask) : List AutonomousTask := drainN q.length q

/-- The `SystemState` dataclass. -/
structure SystemState where
  timestamp : Nat
  health_score : ℚ
  performance_metrics : List (String × ℚ)
  active_tasks : Nat
  completed_tasks : Nat
  failed_tasks : Nat
  system_load : ℚ
  resource_usage : List (String × ℚ)
deriving DecidableEq

/-- The initial `SystemState` built in `AutonomousSystemOrchestrator.__init__`. -/
def initSystemState : SystemState :=
  { timestamp := 0, health_score := 1, performance_metrics := [], active_tasks := 0
    completed_tasks := 0, failed_tasks := 0, system_load := 0, resource_usage := [] }

/-- `AutonomousSystemOrchestrator._update_system_state`.  The two
`hash(str(datetime.now()))` values are explicit `Int` parameters; Python's `%`
on a positive modulus is `Int.emod`. -/
def updateSystemState (st : SystemState) (queue : List AutonomousTask)
    (h1 h2 : Int) (now : Nat) : SystemState :=
  { st with
    timestamp := now
    health_score := 95/100 + ((h1 % 10 : Int) : ℚ) / 100
    active_tasks := (queue.filter (fun t => t.status == "in_progress")).length
    completed_tasks := st.completed_tasks + (queue.filter (fun t => t.status == "completed")).length
    system_load := 3/10 + ((h2 % 70 : Int) : ℚ) / 100 }

/-- `AutonomousSystemOrchestrator._detect_issues`: the two fixed thresholds. -/
def detectIssues (st : SystemState) (now : Nat) : List Issue :=
  (if st.health_score < 8/10
    then [⟨"health_degradation", "medium", ["low_health_score"], now⟩] else [])
  ++ (if st.system_load > 9/10
    then [⟨"high_load", "high", ["high_system_load"], now⟩] else [])

/-- `AutonomousSystemOrchestrator._detect_optimizations`. -/
def detectOptimizations (st : SystemState) : List Optimization :=
  if 100 < st.completed_tasks
    then [⟨"task_cleanup", "Clean up completed tasks", "memory_optimization"⟩] else []

/-- The healing task built by `_monitoring_loop` for a detected issue.  Its
parameters dict is `{'issue': issue}`, whose other projections are defaults. -/
def mkHealingTask (issue : Issue) (now : Nat) : AutonomousTask :=
  { task_id := "healing_" ++ toString now
    agent_type := .self_healer
    priority := .high
    description := "Heal issue: " ++ issue.itype
    parameters := { issue := some issue }
    status := "pending"
    created_at := now }

/-- The optimizer task built by `_monitoring_loop` for a detected
optimization opportunity, with parameters `{'optimization': optimization}`. -/
def mkOptimizationTask (opt : Optimization) (now : Nat) : AutonomousTask :=
  { task_id := "optimization_" ++ toString now
    agent_type := .optimizer
    priority := .medium
    description := "Optimize: " ++ opt.otype
    parameters := { optimization := some opt }
    status := "pending"
    created_at := now }

/-- The task built by the REST `create_task` handler from a validated request. -/
def mkRestTask (agent_type : AgentType) (priority : TaskPriority) (description : String)
    (parameters : TaskParams) (now : Nat) : AutonomousTask :=
  { task_id := "task_" ++ toString now
    agent_type := agent_type
    priority := priority
    description := description
    parameters := parameters
    status := "pending"
    created_at := now }

/-- The orchestrator's mutable state shared by the loops and handlers: the task
queue, the SystemState snapshot, and the decision maker's history. -/
structure OrchState where
  queue : List AutonomousTask
  sys : SystemState
  decisionHistory : List DecisionRec
deriving DecidableEq

/-- The state built by `AutonomousSystemOrchestrator.__init__`. -/
def initOrchState : OrchState := { queue := [], sys := initSystemState, decisionHistory := [] }

/-- One iteration of `_monitoring_loop`: refresh the SystemState, then enqueue
a High-priority healing task per detected issue and a Medium-priority optimizer
task per detected optimization, all with status pending. -/
def monitorStep (s : OrchState) (h1 h2 : Int) (now : Nat) : OrchState :=
  let sys2 := updateSystemState s.sys s.queue h1 h2 now
  let healingTasks := (detectIssues sys2 now).map (fun i => mkHealingTask i now)
  let optTasks := (detectOptimizations sys2).map (fun o => mkOptimizationTask o now)
  { s with sys := sys2, queue := s.queue ++ healingTasks ++ optTasks }

/-- One iteration of `_task_processing_loop`: when the queue is non-empty,
sort it by priority value, pop the head, and execute it; the popped task is
mutated only after it has left the queue and is never re-enqueued. -/
def processStep (s : OrchState) (now : Nat) : OrchState :=
  match dequeue s.queue with
  | none => s
  | some (t, rest) =>
    let r := executeTask s.decisionHistory t now
    { s with queue := rest, decisionHistory := r.2 }

/-- The interleaved effects on the shared orchestrator state: a REST task
creation, a monitoring-loop iteration, a processing-loop iteration, or a REST
decision call (which touches only the decision history). -/
inductive OrchStep : OrchState → OrchState → Prop where
  | createTask (s : OrchState) (agent_type : AgentType) (priority : TaskPriority)
      (description : String) (parameters : TaskParams) (now : Nat) :
      OrchStep s { s with
        queue := s.queue ++ [mkRestTask agent_type priority description parameters now] }
  | monitor (s : OrchState) (h1 h2 : Int) (now : Nat) :
      OrchStep s (monitorStep s h1 h2 now)
  | process (s : OrchState) (now : Nat) :
      OrchStep s (processStep s now)
  | restDecision (s : OrchState) (context : Ctx) (now : Nat) :
      OrchStep s { s with
        decisionHistory := (makeDecisionRecorded s.decisionHistory context now).2 }

/-- States the orchestrator can reach from its initial state through the
core's own loops and REST handlers. -/
def Reachable (s : OrchState) : Prop := Relation.ReflTransGen OrchStep initOrchState s

lemma insertTask_perm (t : AutonomousTask) (l : List AutonomousTask) :
    (insertTask t l).Perm (t :: l) := by
  induction l with
  | nil => simp [insertTask]
  | cons u us ih =>
    simp only [insertTask]
    by_cases h : taskKey t ≤ taskKey u
    · simp [h]
    · simpa [h] using (ih.cons u).trans (List.Perm.swap t u us)

lemma taskSort_perm (q : List AutonomousTask) : (taskSort q).Perm q := by
  induction q with
  | nil => simp [taskSort]
  | cons x xs ih =>
    have : taskSort (x :: xs) = insertTask x (taskSort xs) := rfl
    rw [this]
    exact (insertTask_perm x (taskSort xs)).trans (ih.cons x)

lemma mem_taskSort {t : AutonomousTask} {q : List AutonomousTask} :
    t ∈ taskSort q ↔ t ∈ q := (taskSort_perm q).mem_iff

lemma taskSort_length (q : List AutonomousTask) :
    (taskSort q).length = q.length := (taskSort_perm q).length_eq

lemma insertTask_pairwise {t : AutonomousTask} {l : List AutonomousTask}
    (h : l.Pairwise (fun a b => taskKey a ≤ taskKey b)) :
    (insertTask t l).Pairwise (fun a b => taskKey a ≤ taskKey b) := by
  induction l with
  | nil => simp [insertTask]
  | cons u us ih =>
    simp only [insertTask]
    by_cases hle : taskKey t ≤ taskKey u
    · rw [if_pos hle]
      refine List.Pairwise.cons ?_ h
      intro x hx
      rcases List.mem_cons.mp hx with rfl | hx
      · exact hle
      · exact le_trans hle (List.rel_of_pairwise_cons h hx)
    · rw [if_neg hle]
      refine List.Pairwise.cons ?_ (ih (List.Pairwise.of_cons h))
      intro x hx
      have hx2 : x = t ∨ x ∈ us := by
        have := (insertTask_perm t us).mem_iff.mp hx
        simpa using this
      rcases hx2 with rfl | hx2
      · exact le_of_lt (lt_of_not_le hle)
      · exact List.rel_of_pairwise_cons h hx2

lemma taskSort_pairwise (q : List AutonomousTask) :
    (taskSort q).Pairwise (fun a b => taskKey a ≤ taskKey b) := by
  induction q with
  | nil => simp [taskSort]
  | cons x xs ih => exact insertTask_pairwise ih

lemma filter_key_insertTask (t : AutonomousTask) (k : Nat) (l : List AutonomousTask) :
    (insertTask t l).filter (fun u => taskKey u == k) =
      if taskKey t = k then t :: l.filter (fun u => taskKey u == k)
      else l.filter (fun u => taskKey u == k) := by
  induction l with
  | nil => by_cases h : taskKey t = k <;> simp [insertTask, h]
  | cons u us ih =>
    simp only [insertTask]
    by_cases hle : taskKey t ≤ taskKey u
    · rw [if_pos hle]
      by_cases h : taskKey t = k <;> simp [h, List.filter_cons]
    · rw [if_neg hle]
      by_cases h : taskKey t = k
      · have hu : ¬ taskKey u = k := by
          intro hk
          exact hle (le_of_eq (h.trans hk.symm))
        simp [List.filter_cons, hu, ih, h]
      · by_cases hu : taskKey u = k <;> simp [List.filter_cons, hu, ih, h]

lemma taskSort_filter_key (q : List AutonomousTask) (k : Nat) :
    (taskSort q).filter (fun u => taskKey u == k) = q.filter (fun u => taskKey u == k) := by
  induction q with
  | nil => simp [taskSort]
  | cons x xs ih =>
    have hstep : taskSort (x :: xs) = insertTask x (taskSort xs) := rfl
    rw [hstep, filter_key_insertTask]
    by_cases h : taskKey x = k <;> simp [List.filter_cons, h, ih]

lemma insertTask_eq_cons {t : AutonomousTask} {l : List AutonomousTask}
    (h : ∀ u ∈ l, taskKey t ≤ taskKey u) : insertTask t l = t :: l := by
  cases l with
  | nil => rfl
  | cons u us => simp [insertTask, h u (by simp)]

lemma taskSort_eq_self {l : List AutonomousTask}
    (h : l.Pairwise (fun a b => taskKey a ≤ taskKey b)) : taskSort l = l := by
  induction l with
  | nil => rfl
  | cons x xs ih =>
    have hstep : taskSort (x :: xs) = insertTask x (taskSort xs) := rfl
    rw [hstep, ih (List.Pairwise.of_cons h)]
    exact insertTask_eq_cons (fun u hu => List.rel_of_pairwise_cons h hu)

lemma dequeue_eq_some {q : List AutonomousTask} (hq : q ≠ []) :
    ∃ t rest, dequeue q = some (t, rest) ∧ taskSort q = t :: rest := by
  cases hsort : taskSort q with
  | nil =>
    exfalso
    have := taskSort_length q
    rw [hsort] at this
    exact hq (List.length_eq_zero.mp this.symm)
  | cons t rest =>
    exact ⟨t, rest, by simp [dequeue, hsort], rfl⟩

lemma dequeue_min {q : List AutonomousTask} {t : AutonomousTask}
    {rest : List AutonomousTask} (hsort : taskSort q = t :: rest) :
    ∀ u ∈ q, taskKey t ≤ taskKey u := by
  intro u hu
  have hu2 : u ∈ taskSort q := mem_taskSort.mpr hu
  rw [hsort] at hu2
  rcases List.mem_cons.mp hu2 with rfl | hu2
  · exact le_rfl
  · have := taskSort_pairwise q
    rw [hsort] at this
    exact List.rel_of_pairwise_cons this hu2

lemma dequeue_first_of_min {q : List AutonomousTask} {t : AutonomousTask}
    {rest : List AutonomousTask} (hsort : taskSort q = t :: rest) :
    (q.filter (fun u => taskKey u == taskKey t)).head? = some t := by
  rw [← taskSort_filter_key q (taskKey t), hsort]
  simp [List.filter_cons]

lemma drainN_eq_taskSort : ∀ (n : Nat) (q : List AutonomousTask),
    q.length ≤ n → drainN n q = taskSort q := by
  intro n
  induction n with
  | zero =>
    intro q hq
    have : q = [] := List.length_eq_zero.mp (Nat.le_zero.mp hq)
    subst this
    rfl
  | succ n ih =>
    intro q hq
    by_cases h : q = []
    · subst h; rfl
    · obtain ⟨t, rest, hdq, hsort⟩ := dequeue_eq_some h
      have hdrain : drainN (n + 1) q = t :: drainN n rest := by
        simp [drainN, hdq]
      have hlen : rest.length ≤ n := by
        have := taskSort_length q
        rw [hsort] at this
        simp at this
        omega
      have hrest : drainN n rest = rest := by
        rw [ih rest hlen]
        apply taskSort_eq_self
        have := taskSort_pairwise q
        rw [hsort] at this
        exact List.Pairwise.of_cons this
      rw [hdrain, hrest, hsort]

lemma drain_eq_taskSort (q : List AutonomousTask) : drain q = taskSort q :=
  drainN_eq_taskSort q.length q le_rfl

/-- Example task of Low priority used in the dequeue-order scenario. -/
def exTaskLow : AutonomousTask :=
  { task_id := "task_low", agent_type := .optimizer, priority := .low,
    description := "low", parameters := {}, status := "pending", created_at := 0 }

/-- Example task of Critical priority used in the dequeue-order scenario. -/
def exTaskCritical : AutonomousTask :=
  { task_id := "task_critical", agent_type := .self_healer, priority := .critical,
    description := "critical", parameters := {}, status := "pending", created_at := 1 }

/-- Example task of Medium priority used in the dequeue-order scenario. -/
def exTaskMedium : AutonomousTask :=
  { task_id := "task_medium", agent_type := .decision_maker, priority := .medium,
    description := "medium", parameters := {}, status := "pending", created_at := 2 }

/-- C1: the task-processing loop's dequeue step removes the task with the
numerically lowest priority value, breaking ties by earliest insertion: the
removed task is a member of the queue, its key is minimal, and it is the first
element of the queue among those with its priority value; the sort underlying
the dequeue is stable (it preserves the per-key sublists, hence FIFO among
equal priorities); the order in which a queue is fully served is exactly the
stable sort by priority value; a later-enqueued task with a strictly smaller
priority value than everything queued is served first; and enqueuing
[Low, Critical, Medium] in that order yields dequeue order
[Critical, Medium, Low]. -/
theorem C1_dequeue_lowest_priority_fifo (q : List AutonomousTask) (hq : q ≠ []) :
    (∃ t rest, dequeue q = some (t, rest) ∧ t ∈ q ∧
      (∀ u ∈ q, taskKey t ≤ taskKey u) ∧
      (q.filter (fun u => taskKey u == taskKey t)).head? = some t) ∧
    (∀ k, (taskSort q).filter (fun u => taskKey u == k) =
      q.filter (fun u => taskKey u == k)) ∧
    drain q = taskSort q ∧
    (∀ t2, (∀ u ∈ q, taskKey t2 < taskKey u) →
      ∃ rest2, dequeue (q ++ [t2]) = some (t2, rest2)) ∧
    drain [exTaskLow, exTaskCritical, exTaskMedium] =
      [exTaskCritical, exTaskMedium, exTaskLow] := by
  obtain ⟨t, rest, hdq, hsort⟩ := dequeue_eq_some hq
  refine ⟨⟨t, rest, hdq, ?_, dequeue_min hsort, dequeue_first_of_min hsort⟩,
    fun k => taskSort_filter_key q k, drain_eq_taskSort q, ?_, by decide⟩
  · have : t ∈ taskSort q := by rw [hsort]; simp
    exact mem_taskSort.mp this
  · intro t2 ht2
    have hne : q ++ [t2] ≠ [] := by simp
    obtain ⟨t3, rest3, hdq3, hsort3⟩ := dequeue_eq_some hne
    have hmem : t3 ∈ q ++ [t2] := by
      have : t3 ∈ taskSort (q ++ [t2]) := by rw [hsort3]; simp
      exact mem_taskSort.mp this
    have hmin := dequeue_min hsort3
    have ht3 : t3 = t2 := by
      rcases List.mem_append.mp hmem with hmem | hmem
      · exfalso
        have h1 : taskKey t2 < taskKey t3 := ht2 t3 hmem
        have h2 : taskKey t3 ≤ taskKey t2 := hmin t2 (by simp)
        omega
      · simpa using hmem
    exact ⟨rest3, by rw [ht3] at hdq3; exact hdq3⟩

/-- Witness for C1 at the concrete three-task queue of the scenario. -/
theorem C1_dequeue_lowest_priority_fifo_witness :
    drain [exTaskLow, exTaskCritical, exTaskMedium] =
      [exTaskCritical, exTaskMedium, exTaskLow] :=
  (C1_dequeue_lowest_priority_fifo [exTaskLow, exTaskCritical, exTaskMedium]
    (by simp)).2.2.2.2

/-- C2 counterexample: when the timestamp hash is congruent to 9 modulo 10,
the refreshed health score is 0.95 + 0.09 = 1.04, which is outside [0,1] —
the claim that every refresh leaves health_score in [0,1] is false. -/
theorem C2_counterexample :
    (updateSystemState initSystemState [] 9 0 0).health_score = 26/25 ∧
    ¬ (updateSystemState initSystemState [] 9 0 0).health_score ≤ 1 := by
  constructor
  · norm_num [updateSystemState]
  · norm_num [updateSystemState]

/-- C2 (amended): after every refresh performed by `_update_system_state`,
system_load lies in [0,1] (in fact in [0.3, 0.99]), while health_score lies in
[0.95, 1.04] — so it can exceed 1 (see the counterexample) and the claimed
upper bound 1 holds only for system_load. -/
theorem C2_refresh_bounds (st : SystemState) (queue : List AutonomousTask)
    (h1 h2 : Int) (now : Nat) :
    0 ≤ (updateSystemState st queue h1 h2 now).system_load ∧
    (updateSystemState st queue h1 h2 now).system_load ≤ 1 ∧
    19/20 ≤ (updateSystemState st queue h1 h2 now).health_score ∧
    (updateSystemState st queue h1 h2 now).health_score ≤ 26/25 := by
  have e1nn : (0 : Int) ≤ h1 % 10 := Int.emod_nonneg h1 (by norm_num)
  have e1le : h1 % 10 ≤ 9 := by
    have := Int.emod_lt_of_pos h1 (show (0 : Int) < 10 by norm_num)
    omega
  have e2nn : (0 : Int) ≤ h2 % 70 := Int.emod_nonneg h2 (by norm_num)
  have e2le : h2 % 70 ≤ 69 := by
    have := Int.emod_lt_of_pos h2 (show (0 : Int) < 70 by norm_num)
    omega
  have q1nn : (0 : ℚ) ≤ ((h1 % 10 : Int) : ℚ) := by exact_mod_cast e1nn
  have q1le : ((h1 % 10 : Int) : ℚ) ≤ 9 := by exact_mod_cast e1le
  have q2nn : (0 : ℚ) ≤ ((h2 % 70 : Int) : ℚ) := by exact_mod_cast e2nn
  have q2le : ((h2 % 70 : Int) : ℚ) ≤ 69 := by exact_mod_cast e2le
  simp only [updateSystemState]
  refine ⟨by linarith, by linarith, by linarith, by linarith⟩

/-- Reduction of `execute_automation` when the template lookup succeeds. -/
lemma executeAutomation_some (ex : ProcessStep → TaskParams → StepResult)
    {process_type : Option String} {tmpl : ProcessTemplate} (params : TaskParams) (now : Nat)
    (h : getProcessTemplate process_type = some tmpl) :
    executeAutomation ex process_type params now = Except.ok
      (runSteps ex params ("automation_" ++ toString now) tmpl.steps.length tmpl.steps []) := by
  unfold executeAutomation
  rw [h]

/-- C3 counterexample: for the unregistered process type "replication",
`execute_automation` raises `ValueError("Unknown process type: replication")`
(an `Except.error` here); it does not return an Outcome at all, in particular
not one with success=false. -/
theorem C3_counterexample :
    executeAutomation mockExecuteStep (some "replication") {} 0 =
      Except.error "Unknown process type: replication" ∧
    ¬ ∃ o : AutomationOutcome,
        executeAutomation mockExecuteStep (some "replication") {} 0 = Except.ok o := by
  constructor
  · rfl
  · rintro ⟨o, h⟩
    rw [show executeAutomation mockExecuteStep (some "replication") {} 0 =
      Except.error "Unknown process type: replication" from rfl] at h
    exact Except.noConfusion h

/-- C3 (amended): for every process_type string that is not one of the
registered templates, and any step executor and parameters mapping,
`execute_automation` raises `ValueError` with the specific message
`Unknown process type: <process_type>` instead of returning an Outcome.  The
embedded function reads nothing but its arguments, so the call can neither
enqueue a Task nor mutate Task or queue state. -/
theorem C3_unknown_process_type_raises (ex : ProcessStep → TaskParams → StepResult)
    (s : String) (params : TaskParams) (now : Nat)
    (hd : s ≠ "deployment") (hs : s ≠ "scaling") (hb : s ≠ "backup") :
    executeAutomation ex (some s) params now =
      Except.error ("Unknown process type: " ++ s) := by
  unfold executeAutomation
  simp [getProcessTemplate, pyShowOptStr, hd, hs, hb]

/-- Witness for C3 at the concrete unregistered process type "replication". -/
theorem C3_unknown_process_type_raises_witness :
    executeAutomation mockExecuteStep (some "replication") {} 0 =
      Except.error "Unknown process type: replication" :=
  C3_unknown_process_type_raises mockExecuteStep "replication" {} 0
    (by decide) (by decide) (by decide)

lemma runSteps_all_success (ex : ProcessStep → TaskParams → StepResult) (params : TaskParams)
    (pid : String) (total : Nat) :
    ∀ (steps : List ProcessStep) (acc : List StepResult),
      (∀ s ∈ steps, (ex s params).success = true) →
      runSteps ex params pid total steps acc =
        { process_id := pid, success := true, error := none,
          results := acc ++ steps.map (fun s => ex s params),
          completed_steps := acc.length + steps.length, total_steps := total } := by
  intro steps
  induction steps with
  | nil => intro acc _; simp [runSteps]
  | cons s rest ih =>
    intro acc h
    have hs : (ex s params).success = true := h s (by simp)
    simp only [runSteps, hs, if_true]
    rw [ih (acc ++ [ex s params]) (fun x hx => h x (by simp [hx]))]
    simp [List.append_assoc]
    omega

lemma runSteps_first_fail (ex : ProcessStep → TaskParams → StepResult) (params : TaskParams)
    (pid : String) (total : Nat) (fs : ProcessStep)
    (hf : (ex fs params).success = false) :
    ∀ (pre : List ProcessStep) (post : List ProcessStep) (acc : List StepResult),
      (∀ s ∈ pre, (ex s params).success = true) →
      runSteps ex params pid total (pre ++ fs :: post) acc =
        { process_id := pid, success := false, error := (ex fs params).error, results := [],
          completed_steps := acc.length + (pre.length + 1), total_steps := total } := by
  intro pre
  induction pre with
  | nil =>
    intro post acc _
    simp [runSteps, hf]
  | cons s rest ih =>
    intro post acc h
    have hs : (ex s params).success = true := h s (by simp)
    simp only [List.cons_append, runSteps, hs, if_true, List.append_eq]
    rw [ih post (acc ++ [ex s params]) (fun x hx => h x (by simp [hx]))]
    simp
    omega

/-- A step executor that fails on "create_backup" and otherwise behaves like
the source's mock executor: the executor of the C4 scenario. -/
def backupFailStepExec (step : ProcessStep) (params : TaskParams) : StepResult :=
  if step.action = "create_backup" then
    { action := step.action, success := false, duration := 0, result := none,
      error := some "create_backup failed" }
  else mockExecuteStep step params

/-- C4: for every registered template, `execute_automation` runs the steps in
order and fail-fast: if every step succeeds it returns success=true with all
per-step results and completed_steps = total_steps; on the first failing step
it halts and returns success=false with that step's error, completed_steps
equal to the number of step results gathered so far (the failing one included),
and total_steps the template's step count.  In particular the backup template
with an executor failing on "create_backup" yields success=false,
completed_steps=2, total_steps=4. -/
theorem C4_sequential_failfast (ex : ProcessStep → TaskParams → StepResult)
    (process_type : Option String) (params : TaskParams) (now : Nat)
    (tmpl : ProcessTemplate) (h : getProcessTemplate process_type = some tmpl) :
    ((∀ s ∈ tmpl.steps, (ex s params).success = true) →
      executeAutomation ex process_type params now = Except.ok
        { process_id := "automation_" ++ toString now, success := true, error := none,
          results := tmpl.steps.map (fun s => ex s params),
          completed_steps := tmpl.steps.length, total_steps := tmpl.steps.length }) ∧
    (∀ pre fs post, tmpl.steps = pre ++ fs :: post →
      (∀ s ∈ pre, (ex s params).success = true) → (ex fs params).success = false →
      executeAutomation ex process_type params now = Except.ok
        { process_id := "automation_" ++ toString now, success := false,
          error := (ex fs params).error, results := [],
          completed_steps := pre.length + 1, total_steps := tmpl.steps.length }) ∧
    executeAutomation backupFailStepExec (some "backup") {} 0 = Except.ok
      { process_id := "automation_0", success := false, error := some "create_backup failed",
        results := [], completed_steps := 2, total_steps := 4 } := by
  refine ⟨?_, ?_, rfl⟩
  · intro hall
    rw [executeAutomation_some ex params now h,
      runSteps_all_success ex params _ _ tmpl.steps [] hall]
    simp
  · intro pre fs post hsplit hpre hfail
    rw [executeAutomation_some ex params now h, hsplit,
      runSteps_first_fail ex params _ _ fs hfail pre post [] hpre]
    simp [hsplit]

/-- Witness for C4: the backup scenario, with the template-lookup hypothesis
discharged at the concrete process type "backup". -/
theorem C4_sequential_failfast_witness :
    executeAutomation backupFailStepExec (some "backup") {} 0 = Except.ok
      { process_id := "automation_0", success := false, error := some "create_backup failed",
        results := [], completed_steps := 2, total_steps := 4 } :=
  (C4_sequential_failfast mockExecuteStep (some "backup") {} 0 backupTemplate rfl).2.2

/-- Reduction of `make_decision` when option selection succeeds. -/
lemma makeDecision_eq_ok {context : Ctx} {best : DOption}
    (history : List DecisionRec) (now : Nat)
    (hsel : selectBestOption (generateOptions context) context = some best) :
    makeDecision history context now = Except.ok
      { decision_id := "decision_" ++ toString now
        dtype := classifyDecisionType context
        context := context
        options := generateOptions context
        selected_option := best
        confidence := calculateConfidence history context
        reasoning := generateReasoning best context
        timestamp := now } := by
  unfold makeDecision
  dsimp only []
  rw [hsel]

/-- Reduction of `make_decision` when option selection hits the IndexError. -/
lemma makeDecision_eq_error {context : Ctx} (history : List DecisionRec) (now : Nat)
    (hsel : selectBestOption (generateOptions context) context = none) :
    makeDecision history context now = Except.error "list index out of range" := by
  unfold makeDecision
  dsimp only []
  rw [hsel]

/-- C5: for every context whose classified decision type has no entry in the
option table — i.e. any context containing none of performance_issue,
security_alert, resource_constraint (covering both a business_opportunity
context, classified business_strategy, and a context with none of the four
keys, classified operational_decision) — the generated option list is empty
and `make_decision` raises (the IndexError from `options[0]`) instead of
returning a decision with a silently defaulted selected option. -/
theorem C5_empty_options_error (context : Ctx) (history : List DecisionRec) (now : Nat)
    (h1 : hasKey context "performance_issue" = false)
    (h2 : hasKey context "security_alert" = false)
    (h3 : hasKey context "resource_constraint" = false) :
    (classifyDecisionType context = "business_strategy" ∨
      classifyDecisionType context = "operational_decision") ∧
    generateOptions context = [] ∧
    makeDecision history context now = Except.error "list index out of range" := by
  have hclass : classifyDecisionType context = "business_strategy" ∨
      classifyDecisionType context = "operational_decision" := by
    unfold classifyDecisionType
    simp only [h1, h2, h3, Bool.false_eq_true, if_false]
    by_cases hb : hasKey context "business_opportunity" = true
    · left; simp [hb]
    · right; simp [hb]
  have hopts : generateOptions context = [] := by
    unfold generateOptions
    rcases hclass with hc | hc <;> simp [hc]
  have hsel : selectBestOption (generateOptions context) context = none := by
    rw [hopts]; rfl
  exact ⟨hclass, hopts, makeDecision_eq_error history now hsel⟩

/-- Witness for C5 at the concrete context {business_opportunity: 1}. -/
theorem C5_empty_options_error_witness :
    (classifyDecisionType [("business_opportunity", (1 : ℚ))] = "business_strategy" ∨
      classifyDecisionType [("business_opportunity", (1 : ℚ))] = "operational_decision") ∧
    generateOptions [("business_opportunity", (1 : ℚ))] = [] ∧
    makeDecision [] [("business_opportunity", (1 : ℚ))] 0 =
      Except.error "list index out of range" :=
  C5_empty_options_error [("business_opportunity", 1)] [] 0 rfl rfl rfl

/-- The first-call context of the C6 counterexample: {performance_issue: 1}. -/
def ctxPerf : Ctx := [("performance_issue", 1)]

/-- C6 counterexample: on a first call with empty decision history the
confidence is 0.7, not the claimed (0.7 + 1.0) / 2 = 0.85 — the code leaves
the base confidence untouched when no prior decision of the type exists, so
the success rate is not "taken to be 1.0" in that case. -/
theorem C6_counterexample :
    calculateConfidence [] ctxPerf = 7/10 ∧ ((7 : ℚ)/10 ≠ (7/10 + 1) / 2) := by
  constructor
  · unfold calculateConfidence
    simp only [List.filter_nil, List.isEmpty_nil, if_true]
    exact min_eq_right (by norm_num)
  · norm_num

/-- C6 (amended): the confidence equals min(1, (0.7 + success rate)/2) with
the success rate computed over prior recorded decisions of the same classified
type only when at least one such prior decision exists; with no prior decision
of that type the confidence stays at the base value 0.7 (so a first call with
empty history yields 0.7, not 0.85); a prior decision without an explicit
success flag counts as successful. -/
theorem C6_confidence_history_average (history : List DecisionRec) (context : Ctx) :
    (history.filter (fun d => d.dtype == classifyDecisionType context) = [] →
      calculateConfidence history context = 7/10) ∧
    (history.filter (fun d => d.dtype == classifyDecisionType context) ≠ [] →
      calculateConfidence history context =
        min 1 ((7/10 + successRate
          (history.filter (fun d => d.dtype == classifyDecisionType context))) / 2)) ∧
    (∀ d : DecisionRec, d.success = none → d.success.getD true = true) := by
  refine ⟨?_, ?_, ?_⟩
  · intro h
    unfold calculateConfidence
    rw [h]
    simp only [List.isEmpty_nil, if_true]
    exact min_eq_right (by norm_num)
  · intro h
    unfold calculateConfidence
    have hne : (history.filter (fun d => d.dtype == classifyDecisionType context)).isEmpty = false := by
      rcases he : history.filter (fun d => d.dtype == classifyDecisionType context) with _ | ⟨a, l⟩
      · exact absurd he h
      · rw [he]; rfl
    dsimp only []
    rw [hne]
    simp
  · intro d h
    rw [h]
    rfl

/-- Witness for C6 at the empty history and the performance context. -/
theorem C6_confidence_history_average_witness :
    calculateConfidence [] ctxPerf = 7/10 :=
  (C6_confidence_history_average [] ctxPerf).1 rfl

/-- Bounds for `_calculate_confidence`: the returned value is min(1, base)
with base either 0.7 or the average of 0.7 and a ratio of list lengths, both
nonnegative. -/
lemma calculateConfidence_bounds (history : List DecisionRec) (context : Ctx) :
    0 ≤ calculateConfidence history context ∧ calculateConfidence history context ≤ 1 := by
  unfold calculateConfidence
  constructor
  · apply le_min (by norm_num)
    by_cases h : (history.filter (fun d => d.dtype == classifyDecisionType context)).isEmpty
    · rw [if_pos h]; norm_num
    · rw [if_neg h]
      have hr : 0 ≤ successRate
          (history.filter (fun d => d.dtype == classifyDecisionType context)) :=
        div_nonneg (Nat.cast_nonneg _) (Nat.cast_nonneg _)
      linarith
  · exact min_le_left _ _

/-- C7: every confidence value produced by `make_decision` lies in [0,1]. -/
theorem C7_confidence_in_unit_interval (history : List DecisionRec) (context : Ctx)
    (now : Nat) (d : Decision) (h : makeDecision history context now = Except.ok d) :
    0 ≤ d.confidence ∧ d.confidence ≤ 1 := by
  have hconf : d.confidence = calculateConfidence history context := by
    cases hsel : selectBestOption (generateOptions context) context with
    | none =>
      rw [makeDecision_eq_error history now hsel] at h
      exact Except.noConfusion h
    | some best =>
      rw [makeDecision_eq_ok history now hsel] at h
      injection h with h2
      rw [← h2]
  rw [hconf]
  exact calculateConfidence_bounds history context

/-- The concrete decision returned by the first call on {performance_issue: 1}:
option scoring picks investigate_root_cause (score 2.6, the strict maximum). -/
def exDecision : Decision :=
  { decision_id := "decision_" ++ toString 0
    dtype := classifyDecisionType ctxPerf
    context := ctxPerf
    options := generateOptions ctxPerf
    selected_option := ⟨"investigate_root_cause", "high", "low"⟩
    confidence := calculateConfidence [] ctxPerf
    reasoning := generateReasoning ⟨"investigate_root_cause", "high", "low"⟩ ctxPerf
    timestamp := 0 }

/-- Witness for C7 at a concrete first call on the performance context. -/
theorem C7_confidence_in_unit_interval_witness :
    0 ≤ exDecision.confidence ∧ exDecision.confidence ≤ 1 :=
  C7_confidence_in_unit_interval [] ctxPerf 0 exDecision
    (makeDecision_eq_ok [] 0 (by
      simp [selectBestOption, generateOptions, classifyDecisionType, calculateOptionScore,
        impactScore, costScore, hasKey, getNum, ctxPerf]
      norm_num))

/-- The symptom list of the C8 counterexample: both patterns present. -/
def cexSymptoms : List String := ["connection_refused", "out_of_memory"]

/-- C8 counterexample: an issue whose symptoms contain "out_of_memory" but
also "connection_refused" is classified service_unavailable/high/0.9, because
the connection_refused pattern is checked first — so the classification is not
resource_exhaustion "regardless of what other symptoms are present". -/
theorem C8_counterexample :
    strContains (strOfSymptoms cexSymptoms) "out_of_memory" = true ∧
    (diagnoseIssue (strOfSymptoms cexSymptoms)).issue_type = "service_unavailable" ∧
    (diagnoseIssue (strOfSymptoms cexSymptoms)).issue_type ≠ "resource_exhaustion" ∧
    (diagnoseIssue (strOfSymptoms cexSymptoms)).severity = "high" ∧
    (diagnoseIssue (strOfSymptoms cexSymptoms)).confidence = 9/10 := by
  refine ⟨rfl, rfl, by decide, rfl, rfl⟩

/-- C8 (amended): an issue whose symptoms contain the substring
"out_of_memory" and do not contain "connection_refused" (the pattern checked
before it) is always classified issue_type=resource_exhaustion with
severity=critical and confidence=0.95, both by `_diagnose_issue` and in the
diagnosis of the report returned by `diagnose_and_heal`. -/
theorem C8_out_of_memory_diagnosis (symptoms : List String)
    (issue_id : Option String) (now : Nat)
    (h1 : strContains (strOfSymptoms symptoms) "out_of_memory" = true)
    (h2 : strContains (strOfSymptoms symptoms) "connection_refused" = false) :
    diagnoseIssue (strOfSymptoms symptoms) =
      ⟨"resource_exhaustion", "critical", "Insufficient memory resources", 95/100⟩ ∧
    (diagnoseAndHeal symptoms issue_id now).diagnosis =
      ⟨"resource_exhaustion", "critical", "Insufficient memory resources", 95/100⟩ := by
  have hd : diagnoseIssue (strOfSymptoms symptoms) =
      ⟨"resource_exhaustion", "critical", "Insufficient memory resources", 95/100⟩ := by
    unfold diagnoseIssue
    simp [h1, h2]
  refine ⟨hd, ?_⟩
  unfold diagnoseAndHeal
  dsimp only []
  rw [hd]

/-- Witness for C8 at the concrete single symptom "out_of_memory". -/
theorem C8_out_of_memory_diagnosis_witness :
    diagnoseIssue (strOfSymptoms ["out_of_memory"]) =
      ⟨"resource_exhaustion", "critical", "Insufficient memory resources", 95/100⟩ ∧
    (diagnoseAndHeal ["out_of_memory"] none 0).diagnosis =
      ⟨"resource_exhaustion", "critical", "Insufficient memory resources", 95/100⟩ :=
  C8_out_of_memory_diagnosis ["out_of_memory"] none 0 rfl rfl

/-- A queue whose tasks are all pending contributes nothing to any
status-based filter other than "pending". -/
lemma filter_status_eq_nil {q : List AutonomousTask} (st : String)
    (hne : st ≠ "pending") (hall : ∀ t ∈ q, t.status = "pending") :
    q.filter (fun t => t.status == st) = [] := by
  rw [List.filter_eq_nil_iff]
  intro t ht
  rw [hall t ht]
  simp only [beq_iff_eq]
  exact fun hc => hne hc.symm

/-- From a successful dequeue back to the sorted queue decomposition. -/
lemma dequeue_some_sort {q : List AutonomousTask} {t : AutonomousTask}
    {rest : List AutonomousTask} (h : dequeue q = some (t, rest)) :
    taskSort q = t :: rest := by
  unfold dequeue at h
  cases hsort : taskSort q with
  | nil => rw [hsort] at h; exact Option.noConfusion h
  | cons a l =>
    rw [hsort] at h
    simp only [Option.some.injEq, Prod.mk.injEq] at h
    rw [h.1, h.2]

/-- C9: in every orchestrator state reachable from the initial state through
the core's own loops and handlers, every task in the queue has status pending
(both producers enqueue pending tasks and the processing loop removes a task
before mutating it), the completed_tasks counter is still 0, and hence each
monitoring-loop refresh computes active_tasks = 0, adds 0 to completed_tasks,
and detects no optimization opportunity — the completed_tasks > 100 trigger is
never reached. -/
theorem C9_queue_all_pending_no_optimization (s : OrchState) (h : Reachable s) :
    (∀ t ∈ s.queue, t.status = "pending") ∧
    s.sys.completed_tasks = 0 ∧
    (∀ h1 h2 now,
      (updateSystemState s.sys s.queue h1 h2 now).active_tasks = 0 ∧
      (updateSystemState s.sys s.queue h1 h2 now).completed_tasks = 0 ∧
      detectOptimizations (updateSystemState s.sys s.queue h1 h2 now) = []) := by
  have inv : (∀ t ∈ s.queue, t.status = "pending") ∧ s.sys.completed_tasks = 0 := by
    induction h with
    | refl => exact ⟨by simp [initOrchState], rfl⟩
    | @tail b c hab step ih =>
      cases step with
      | createTask agent_type priority description parameters now =>
        refine ⟨?_, ih.2⟩
        intro t ht
        rcases List.mem_append.mp ht with ht | ht
        · exact ih.1 t ht
        · rw [List.mem_singleton] at ht
          rw [ht]
          rfl
      | monitor hh1 hh2 now =>
        unfold monitorStep
        dsimp only []
        constructor
        · intro t ht
          rcases List.mem_append.mp ht with ht | ht
          · rcases List.mem_append.mp ht with ht | ht
            · exact ih.1 t ht
            · rcases List.mem_map.mp ht with ⟨i, _, hi⟩
              rw [← hi]
              rfl
          · rcases List.mem_map.mp ht with ⟨o, _, ho⟩
            rw [← ho]
            rfl
        · have hco : b.queue.filter (fun t => t.status == "completed") = [] :=
            filter_status_eq_nil "completed" (by decide) ih.1
          simp [updateSystemState, hco, ih.2]
      | process now =>
        cases hdq : dequeue b.queue with
        | none =>
          simp only [processStep, hdq]
          exact ih
        | some pr =>
          obtain ⟨t, rest⟩ := pr
          have hsort := dequeue_some_sort hdq
          simp only [processStep, hdq]
          refine ⟨?_, ih.2⟩
          intro u hu
          have hu2 : u ∈ taskSort b.queue := by
            rw [hsort]
            exact List.mem_cons_of_mem t hu
          exact ih.1 u (mem_taskSort.mp hu2)
      | restDecision context now => exact ih
  refine ⟨inv.1, inv.2, ?_⟩
  intro h1 h2 now
  have hin : s.queue.filter (fun t => t.status == "in_progress") = [] :=
    filter_status_eq_nil "in_progress" (by decide) inv.1
  have hco : s.queue.filter (fun t => t.status == "completed") = [] :=
    filter_status_eq_nil "completed" (by decide) inv.1
  refine ⟨by simp [updateSystemState, hin], by simp [updateSystemState, hco, inv.2], ?_⟩
  simp [detectOptimizations, updateSystemState, hco, inv.2]

/-- Witness for C9 one monitoring step after the initial state. -/
theorem C9_queue_all_pending_no_optimization_witness :
    (monitorStep initOrchState 3 5 7).sys.completed_tasks = 0 :=
  (C9_queue_all_pending_no_optimization (monitorStep initOrchState 3 5 7)
    (Relation.ReflTransGen.single (OrchStep.monitor initOrchState 3 5 7))).2.1

/-- C10: a dequeued task whose agent-type tag is system_monitor or optimizer
(no matching agent in the dispatch) is marked completed — not failed — with a
completion timestamp, its result payload is exactly the error dict naming the
unknown agent type, its error_message is untouched, and the decision history
is unchanged; the Medium-priority optimizer tasks the monitoring loop creates
are of exactly this shape. -/
theorem C10_unknown_agent_completed (history : List DecisionRec)
    (task : AutonomousTask) (now : Nat)
    (h : task.agent_type = AgentType.system_monitor ∨
      task.agent_type = AgentType.optimizer) :
    (executeTask history task now).1.status = "completed" ∧
    (executeTask history task now).1.completed_at = some now ∧
    (executeTask history task now).1.started_at = some now ∧
    (executeTask history task now).1.result =
      some (TaskResult.errPayload ("Unknown agent type: " ++ agentTypeStr task.agent_type)) ∧
    (executeTask history task now).1.error_message = task.error_message ∧
    (executeTask history task now).1.status ≠ "failed" ∧
    (executeTask history task now).2 = history ∧
    (∀ opt now2, (mkOptimizationTask opt now2).agent_type = AgentType.optimizer ∧
      (mkOptimizationTask opt now2).priority = TaskPriority.medium ∧
      (mkOptimizationTask opt now2).status = "pending") := by
  rcases h with h | h <;>
    exact ⟨by simp [executeTask, h], by simp [executeTask, h], by simp [executeTask, h],
      by simp [executeTask, h], by simp [executeTask, h], by simp [executeTask, h],
      by simp [executeTask, h], fun opt now2 => ⟨rfl, rfl, rfl⟩⟩

/-- A concrete optimizer task like those the monitoring loop creates. -/
def exOptimizerTask : AutonomousTask :=
  mkOptimizationTask ⟨"task_cleanup", "Clean up completed tasks", "memory_optimization"⟩ 1

/-- Witness for C10 at a concrete optimizer task. -/
theorem C10_unknown_agent_completed_witness :
    (executeTask [] exOptimizerTask 5).1.status = "completed" :=
  (C10_unknown_agent_completed [] exOptimizerTask 5 (Or.inr rfl)).1

end AutoOrch
